import Mathlib

/-!
Shallow embedding of the kw-backend synchronization-and-scheduling engine
(`kw_webapp/models.py` and `api/sync/WanikaniUserSyncerV2.py`), together
with theorems settling the frozen claims about it.

Conventions:
* timestamps (`DateTimeField`) are seconds since the epoch, modelled as `Nat`;
  nullable fields are `Option`;
* Python exceptions are modelled with `Except PyErr`; stateful methods of the
  syncer return the post state paired with an `Except` outcome, so state
  mutations performed before an exception is raised are preserved, matching
  Django's per-`save()` persistence;
* Python `float` ratios are modelled exactly with `ℚ`.
-/

namespace KW

/-- Python exceptions raised by the embedded code paths. -/
inductive PyErr where
  | invalidKey        -- wanikani_api InvalidWanikaniApiKeyException
  | attributeError    -- missing attribute (e.g. `out_of_date` on UserSpecific / None)
  | zeroDivisionError -- float division by zero
  deriving DecidableEq, Repr

/-- Modelled from the spec: the numeric scheduling constants live in
`kw_webapp/constants.py`, which is not among the provided source files; only
their names and roles are known from the spec (`MINIMUM_ATTEMPT_COUNT_FOR_CRITICALITY`,
`CRITICALITY_THRESHOLD`, the burned tier `WANIKANI_SRS_LEVELS[BURNED][0]`, the
interval-hours table `SRS_TIMES`, and the rounding granularity
`REVIEW_ROUNDING_TIME`). They are therefore kept as parameters of the
embedding. `srs_times` models the dict: `none` means the streak has no entry. -/
structure SrsConfig where
  minimum_attempt_count_for_criticality : Nat
  criticality_threshold : ℚ
  burn_streak : Nat
  srs_times : Nat → Option Nat
  review_rounding_seconds : Nat

/-- The per-(user, vocabulary) review record `UserSpecific` (models.py).
The user foreign key is left implicit (the syncer operates on one user);
the vocabulary foreign key is kept as the vocabulary's row identity. -/
structure UserSpecific where
  vocabulary_id : Nat
  correct : Nat
  incorrect : Nat
  streak : Nat
  last_studied : Option Nat
  needs_review : Bool
  unlock_date : Nat
  next_review_date : Option Nat
  burned : Bool
  hidden : Bool
  wanikani_srs : String
  wanikani_srs_numeric : Int
  wanikani_burned : Bool
  notes : Option String
  critical : Bool
  wk_assignment_last_modified : Option Nat
  wk_study_materials_last_modified : Option Nat
  meaning_note : Option String
  reading_note : Option String
  deriving DecidableEq, Repr

namespace UserSpecific

/-- `UserSpecific._can_be_critical`. -/
def can_be_critical (cfg : SrsConfig) (r : UserSpecific) : Bool :=
  decide (cfg.minimum_attempt_count_for_criticality ≤ r.correct + r.incorrect)

/-- `UserSpecific._breaks_threshold`:
`float(self.incorrect) / float(self.correct + self.incorrect) >= CRITICALITY_THRESHOLD`.
Python raises `ZeroDivisionError` when the denominator is zero. -/
def breaks_threshold (cfg : SrsConfig) (r : UserSpecific) : Except PyErr Bool :=
  if r.correct + r.incorrect = 0 then
    .error .zeroDivisionError
  else
    .ok (decide (cfg.criticality_threshold ≤
      (r.incorrect : ℚ) / ((r.correct : ℚ) + (r.incorrect : ℚ))))

/-- `UserSpecific.is_critical`: `self._can_be_critical() and self._breaks_threshold()`,
with Python's short-circuiting `and` (the ratio is not evaluated when the
attempt-count guard fails). -/
def is_critical (cfg : SrsConfig) (r : UserSpecific) : Except PyErr Bool :=
  if can_be_critical cfg r then breaks_threshold cfg r else .ok false

/-- `UserSpecific.set_criticality`. -/
def set_criticality (cfg : SrsConfig) (r : UserSpecific) : Except PyErr UserSpecific :=
  match is_critical cfg r with
  | .ok b => .ok { r with critical := b }
  | .error e => .error e

/-- The rounding step of `_round_next_review_date`: `seconds` is the
seconds-within-day component of the timestamp, `rounding = (seconds + round_to)
// round_to * round_to`, and the date moves forward by `rounding - seconds`. -/
def round_time_up (round_to t : Nat) : Nat :=
  let seconds := t % 86400
  let rounding := (seconds + round_to) / round_to * round_to
  t + (rounding - seconds)

/-- The `next_review_date` computed by `UserSpecific.set_next_review_time`
for a given streak at time `now`: `None` when the streak has no `SRS_TIMES`
entry, otherwise `now + hours`, rounded up. -/
def next_review_time (cfg : SrsConfig) (streak now : Nat) : Option Nat :=
  match cfg.srs_times streak with
  | none => none
  | some hours => some (round_time_up cfg.review_rounding_seconds (now + hours * 3600))

/-- `UserSpecific.set_next_review_time` as a state update. -/
def set_next_review_time (cfg : SrsConfig) (now : Nat) (r : UserSpecific) : UserSpecific :=
  { r with next_review_date := next_review_time cfg r.streak now }

/-- `UserSpecific.answered_correctly(first_try)` (models.py lines 412-427). -/
def answered_correctly (cfg : SrsConfig) (now : Nat) (r : UserSpecific)
    (first_try : Bool) : Except PyErr UserSpecific :=
  let r :=
    if r.streak = 0 then
      { r with streak := r.streak + 1 }
    else if first_try then
      let r := { r with correct := r.correct + 1, streak := r.streak + 1 }
      if cfg.burn_streak ≤ r.streak then { r with burned := true } else r
    else r
  let r := { r with needs_review := false, last_studied := some now }
  let r := set_next_review_time cfg now r
  set_criticality cfg r

/-- `UserSpecific.answered_incorrectly` (models.py lines 429-445). -/
def answered_incorrectly (cfg : SrsConfig) (r : UserSpecific) : Except PyErr UserSpecific :=
  let r := { r with incorrect := r.incorrect + 1 }
  let r :=
    if r.streak = 7 then { r with streak := r.streak - 2 }
    else if 1 < r.streak then { r with streak := r.streak - 1 }
    else r
  let r := { r with streak := max 0 r.streak }
  set_criticality cfg r

end UserSpecific

/-- A meaning object of a remote vocabulary snapshot (wanikani_api). -/
structure MeaningObj where
  meaning : String
  primary : Bool
  deriving DecidableEq, Repr

/-- A reading object of a remote vocabulary snapshot; only its `.reading`
(the kana) is consulted by the code. -/
structure ReadingObj where
  reading : String
  deriving DecidableEq, Repr

/-- A remote vocabulary snapshot as consumed by `Vocabulary.reconcile`:
`data_updated_at`, `level`, `characters`, `meanings`, `auxiliary_meanings`
(only `.meaning` of each is used, so they are plain strings here),
`readings` and `parts_of_speech`. -/
structure VocabSnapshot where
  data_updated_at : Nat
  level : Nat
  characters : String
  meanings : List MeaningObj
  auxiliary_meanings : List String
  readings : List ReadingObj
  parts_of_speech : List String
  deriving DecidableEq, Repr

/-- A `Reading` row (models.py): only the fields the reconciliation touches. -/
structure Reading where
  character : String
  kana : String
  level : Option Nat
  deriving DecidableEq, Repr

/-- The local `Vocabulary` row (models.py) together with its owned
`readings` and `parts_of_speech` collections. -/
structure Vocabulary where
  meaning : String
  alternate_meanings : String
  wk_subject_id : Nat
  wk_last_modified : Option Nat
  parts_of_speech : List String
  auxiliary_meanings_whitelist : Option String
  level : Option Nat
  readings : List Reading
  deriving DecidableEq, Repr

namespace Vocabulary

/-- `Vocabulary.is_out_of_date`:
`self.wk_last_modified is None or vocabulary.data_updated_at > self.wk_last_modified`. -/
def is_out_of_date (v : Vocabulary) (snap : VocabSnapshot) : Bool :=
  match v.wk_last_modified with
  | none => true
  | some t => decide (t < snap.data_updated_at)

/-- `Vocabulary._delete_stale_readings_based_on`: delete the local readings
whose kana no longer appears among the remote reading kanas. -/
def delete_stale_readings_based_on (v : Vocabulary) (snap : VocabSnapshot) : Vocabulary :=
  let reading_kanas := snap.readings.map ReadingObj.reading
  { v with readings := v.readings.filter (fun r => reading_kanas.contains r.kana) }

/-- `Vocabulary._add_new_readings_based_on`: for each remote reading whose
kana is not already present, append a new `Reading` row carrying the
snapshot's characters and level. The list of current kanas is computed once,
before the loop, exactly as in the source. -/
def add_new_readings_based_on (v : Vocabulary) (snap : VocabSnapshot) : Vocabulary :=
  let current_reading_kanas := v.readings.map Reading.kana
  let new_remote := snap.readings.filter (fun ro => !current_reading_kanas.contains ro.reading)
  let readings_to_add := new_remote.map (fun ro =>
    ({ character := snap.characters, kana := ro.reading, level := some snap.level } : Reading))
  { v with readings := v.readings ++ readings_to_add }

/-- `Vocabulary._reconcile_parts_of_speech_based_on`: clear, then
`get_or_create` each remote part (so remote duplicates collapse). -/
def reconcile_parts_of_speech_based_on (v : Vocabulary) (snap : VocabSnapshot) : Vocabulary :=
  { v with parts_of_speech :=
      snap.parts_of_speech.foldl (fun acc p => if acc.contains p then acc else acc ++ [p]) [] }

/-- `Vocabulary.reconcile` (models.py lines 232-249). The `for` loop over the
meanings assigns `self.meaning` for every flagged-primary meaning, so the last
primary one wins and the field is untouched when none is primary. -/
def reconcile (v : Vocabulary) (snap : VocabSnapshot) : Vocabulary :=
  let primary_meanings := snap.meanings.filter MeaningObj.primary
  let non_primary := (snap.meanings.filter (fun m => !m.primary)).map MeaningObj.meaning
  let v := { v with wk_last_modified := some snap.data_updated_at, level := some snap.level }
  let v := { v with meaning := primary_meanings.foldl (fun _ (mo : MeaningObj) => mo.meaning) v.meaning }
  let v := { v with alternate_meanings := ",".intercalate non_primary,
                    auxiliary_meanings_whitelist := some (",".intercalate snap.auxiliary_meanings) }
  let v := delete_stale_readings_based_on v snap
  let v := add_new_readings_based_on v snap
  reconcile_parts_of_speech_based_on v snap

end Vocabulary

/-- A remote assignment snapshot as consumed by
`UserSpecific.reconcile_assignment` and the syncer. -/
structure AssignmentSnapshot where
  subject_id : Nat
  srs_stage_name : String
  srs_stage : Int
  burned_at : Option Nat
  data_updated_at : Nat
  deriving DecidableEq, Repr

namespace UserSpecific

/-- `UserSpecific.is_assignment_out_of_date`. -/
def is_assignment_out_of_date (r : UserSpecific) (a : AssignmentSnapshot) : Bool :=
  match r.wk_assignment_last_modified with
  | none => true
  | some t => decide (t < a.data_updated_at)

/-- `UserSpecific.reconcile_assignment` (models.py lines 387-392). -/
def reconcile_assignment (r : UserSpecific) (a : AssignmentSnapshot) : UserSpecific :=
  { r with
      wanikani_srs := a.srs_stage_name,
      wanikani_srs_numeric := a.srs_stage,
      wanikani_burned := a.burned_at.isSome,
      wk_assignment_last_modified := some a.data_updated_at }

end UserSpecific

/-- A remote study-material snapshot. Only its presence matters to the
embedded code path (`update_synonyms_for_assignments` crashes on the first
one it iterates, see below). -/
structure StudyMaterialSnapshot where
  subject_id : Nat
  meaning_note : Option String
  reading_note : Option String
  meaning_synonyms : Option (List String)
  data_updated_at : Nat
  deriving DecidableEq, Repr

/-- The remote profile payload consumed by `sync_user_profile_with_wk`. -/
structure ProfileInfo where
  started_at : Nat
  level : Nat
  deriving DecidableEq, Repr

/-- The fields of `Profile` (models.py) that the syncer reads or writes. -/
structure Profile where
  api_valid : Bool
  join_date : Option Nat
  last_wanikani_sync_date : Option Nat
  level : Nat
  unlocked_levels : List Nat
  follow_me : Bool
  deriving DecidableEq, Repr

/-- Log lines emitted by the syncer; `duplicateReview` carries the offending
record, mirroring the per-offender `logger.error` in `associate_vocab_to_user`. -/
inductive LogEvent where
  | aboutToSync
  | syncedProfile
  | notAttemptingSync
  | creatingSyncString
  | missingVocab (subject_id : Nat)
  | duplicateReview (offender : UserSpecific)
  | syncedVocabulary
  | couldNotSyncRecentVocab
  deriving DecidableEq, Repr

/-- The record store visible to one user's sync pass: the profile, the global
vocabulary catalog, this user's review records (keyed by vocabulary, matching
the `unique_together ("vocabulary", "user")` constraint), and the log. -/
structure SyncState where
  profile : Profile
  vocabularies : List Vocabulary
  reviews : List UserSpecific
  log : List LogEvent
  deriving DecidableEq, Repr

/-- The remote WaniKani client, modelled as pre-fetched data: each fetch either
yields its payload or raises `InvalidWanikaniApiKeyException` (`.error ()`).
`now` is the clock read by `timezone.now()`. -/
structure WkEnv where
  now : Nat
  profile_fetch : Except Unit ProfileInfo
  assignments_all : Except Unit (List AssignmentSnapshot)
  assignments_by_level : List Int → Except Unit (List AssignmentSnapshot)
  study_materials : List Nat → Except Unit (List StudyMaterialSnapshot)

/-- The value returned by `sync_recent_unlocked_vocab_with_wk_v2`: Python
dynamically returns either the int `new_review_count` (success path) or the
2-tuple `0, 0` (the shared fall-through `return 0, 0`). -/
inductive PyVal where
  | int (n : Nat)
  | pair (a b : Nat)
  deriving DecidableEq, Repr

/-- The value returned by `sync_with_wk`: the success branch returns the
2-tuple `profile_sync_succeeded, new_review_count`, the failure branch the
3-tuple `profile_sync_succeeded, 0, 0`. -/
inductive SyncReturn where
  | pair2 (profile_sync_succeeded : Bool) (new_review_count : PyVal)
  | triple (profile_sync_succeeded : Bool) (a b : Nat)
  deriving DecidableEq, Repr

namespace Syncer

/-- A fresh `UserSpecific` with the model-field defaults of models.py
(`correct=0`, `incorrect=0`, `streak=0`, `needs_review=True`,
`unlock_date=timezone.now`, `next_review_date=timezone.now`, `burned=False`,
`hidden=False`, `wanikani_srs="unknown"`, `wanikani_srs_numeric=0`,
`wanikani_burned=False`, `critical=False`, nullable fields `None`). -/
def newUserSpecific (vocabulary_id now : Nat) : UserSpecific :=
  { vocabulary_id := vocabulary_id
    correct := 0
    incorrect := 0
    streak := 0
    last_studied := none
    needs_review := true
    unlock_date := now
    next_review_date := some now
    burned := false
    hidden := false
    wanikani_srs := "unknown"
    wanikani_srs_numeric := 0
    wanikani_burned := false
    notes := none
    critical := false
    wk_assignment_last_modified := none
    wk_study_materials_last_modified := none
    meaning_note := none
    reading_note := none }

/-- `WanikaniUserSyncerV2.associate_vocab_to_user`:
`get_or_create(vocabulary=vocab, user=self.user)`; on creation the record is
marked immediately due (`needs_review=True`, `next_review_date=now`) and
saved; on `MultipleObjectsReturned` every offender is logged and
`(None, None)` is returned. The result mirrors Python's
`(review-or-None, created-or-None)`. -/
def associate_vocab_to_user (now : Nat) (vocab : Vocabulary) (s : SyncState) :
    SyncState × Option UserSpecific × Option Bool :=
  let existing := s.reviews.filter (fun r => r.vocabulary_id = vocab.wk_subject_id)
  match existing with
  | [] =>
      let review := newUserSpecific vocab.wk_subject_id now
      let review := { review with needs_review := true, next_review_date := some now }
      ({ s with reviews := s.reviews ++ [review] }, some review, some true)
  | [r] => (s, some r, some false)
  | _ =>
      ({ s with log := s.log ++ existing.map LogEvent.duplicateReview }, none, none)

/-- `WanikaniUserSyncerV2.process_single_item_from_wanikani_v2`.
When the vocabulary is unknown locally the data gap is logged and
`(None, False)` returned. Otherwise the review is associated and the code
evaluates `review.out_of_date(assignment)` — but `UserSpecific` defines no
`out_of_date` method (models.py has only `is_assignment_out_of_date`; the
`# TODO IMPLEMENT out_of_date for UserSpecific` comment marks the gap), and
on the duplicate branch `review` is `None`, so either way the attribute
lookup raises `AttributeError`. State changes made by the association
(creation, duplicate logging) have already been saved and persist. -/
def process_single_item_from_wanikani_v2 (now : Nat) (assignment : AssignmentSnapshot)
    (s : SyncState) : SyncState × Except PyErr (Option UserSpecific × Option Bool) :=
  match s.vocabularies.find? (fun v => v.wk_subject_id = assignment.subject_id) with
  | none => ({ s with log := s.log ++ [.missingVocab assignment.subject_id] }, .ok (none, some false))
  | some vocab =>
      let (s, _review, _created) := associate_vocab_to_user now vocab s
      (s, .error .attributeError)

/-- `WanikaniUserSyncerV2.update_synonyms_for_assignments`: fetch study
materials for all the assignments' subject ids, then iterate them. The loop
body calls `review.is_study_material_out_of_date(...)` on the *QuerySet*
returned by `UserSpecific.objects.filter(...)`, an attribute a QuerySet does
not have, so the first study material raises `AttributeError`; an
invalid-credential failure of the fetch itself propagates. -/
def update_synonyms_for_assignments (env : WkEnv) (assignments : List AssignmentSnapshot)
    (s : SyncState) : SyncState × Except PyErr Unit :=
  match env.study_materials (assignments.map AssignmentSnapshot.subject_id) with
  | .error _ => (s, .error .invalidKey)
  | .ok [] => (s, .ok ())
  | .ok (_ :: _) => (s, .error .attributeError)

/-- The `for assignment in assignments` loop of
`process_vocabulary_response_for_user_v2`, threading the running
`new_review_count`. On the follow path, after processing a single item the
loop increments the counter if `created` is truthy and then calls
`review.save()`, which raises `AttributeError` when `review` is `None`
(the unknown-vocabulary outcome). On the not-followed path it calls
`update_synonyms_for_assignments` with the full assignment list. -/
def process_loop (env : WkEnv) (all_assignments : List AssignmentSnapshot) :
    List AssignmentSnapshot → Nat → SyncState → SyncState × Except PyErr Nat
  | [], count, s => (s, .ok count)
  | assignment :: rest, count, s =>
      if s.profile.follow_me then
        match process_single_item_from_wanikani_v2 env.now assignment s with
        | (s, .error e) => (s, .error e)
        | (s, .ok (review, created)) =>
            let count := if created = some true then count + 1 else count
            match review with
            | none => (s, .error .attributeError)
            | some _ => process_loop env all_assignments rest count s
      else
        match update_synonyms_for_assignments env all_assignments s with
        | (s, .error e) => (s, .error e)
        | (s, .ok _) => process_loop env all_assignments rest count s

/-- `WanikaniUserSyncerV2.process_vocabulary_response_for_user_v2`. -/
def process_vocabulary_response_for_user_v2 (env : WkEnv)
    (assignments : List AssignmentSnapshot) (s : SyncState) : SyncState × Except PyErr Nat :=
  match process_loop env assignments assignments 0 s with
  | (s, .ok count) => ({ s with log := s.log ++ [.syncedVocabulary] }, .ok count)
  | (s, .error e) => (s, .error e)

/-- `WanikaniUserSyncerV2.sync_unlocked_vocab_with_wk_v2` (the `full_sync`
path): with a non-empty unlocked-level list, fetch all vocabulary
assignments and process them; on success the result is
`new_review_count += new_review_count` — the count added to itself; an
`InvalidWanikaniApiKeyException` anywhere in the `try` is caught, marks the
credential invalid and leaves the initial count `0` to be returned; any
other exception propagates to the caller. -/
def sync_unlocked_vocab_with_wk_v2 (env : WkEnv) (s : SyncState) :
    SyncState × Except PyErr Nat :=
  if s.profile.unlocked_levels = [] then (s, .ok 0)
  else
    let s := { s with log := s.log ++ [.creatingSyncString] }
    match env.assignments_all with
    | .error _ =>
        ({ s with profile := { s.profile with api_valid := false } }, .ok 0)
    | .ok assignments =>
        match process_vocabulary_response_for_user_v2 env assignments s with
        | (s, .ok count) => (s, .ok (count + count))
        | (s, .error .invalidKey) =>
            ({ s with profile := { s.profile with api_valid := false } }, .ok 0)
        | (s, .error e) => (s, .error e)

/-- `WanikaniUserSyncerV2.sync_recent_unlocked_vocab_with_wk_v2`: restrict to
`range(level - 2, level + 1)` (Python integer semantics, hence `Int`)
intersected with the unlocked levels; all failure paths fall through to the
shared `return 0, 0`, so this method never raises: an invalid credential
marks the profile invalid, any other exception is logged, and both return
the 2-tuple `0, 0`. -/
def sync_recent_unlocked_vocab_with_wk_v2 (env : WkEnv) (s : SyncState) :
    SyncState × PyVal :=
  if s.profile.unlocked_levels = [] then (s, .pair 0 0)
  else
    let lv : Int := s.profile.level
    let levels := [lv - 2, lv - 1, lv].filter
      (fun l => (s.profile.unlocked_levels.map (Int.ofNat)).contains l)
    if levels = [] then (s, .pair 0 0)
    else
      match env.assignments_by_level levels with
      | .error _ =>
          ({ s with profile := { s.profile with api_valid := false } }, .pair 0 0)
      | .ok assignments =>
          match process_vocabulary_response_for_user_v2 env assignments s with
          | (s, .ok count) => (s, .int count)
          | (s, .error .invalidKey) =>
              ({ s with profile := { s.profile with api_valid := false } }, .pair 0 0)
          | (s, .error _) =>
              ({ s with log := s.log ++ [.couldNotSyncRecentVocab] }, .pair 0 0)

/-- `WanikaniUserSyncerV2.sync_user_profile_with_wk`: on
`InvalidWanikaniApiKeyException` mark `api_valid = False`, save, and report
failure; on success update join date, last-sync timestamp and validity, and
if the profile follows the remote level, `get_or_create` the remote level in
the unlocked set and store it as the current level. -/
def sync_user_profile_with_wk (env : WkEnv) (s : SyncState) : SyncState × Bool :=
  match env.profile_fetch with
  | .error _ =>
      ({ s with profile := { s.profile with api_valid := false } }, false)
  | .ok info =>
      let p := s.profile
      let p := { p with join_date := some info.started_at,
                        last_wanikani_sync_date := some env.now,
                        api_valid := true }
      let p :=
        if p.follow_me then
          let unlocked := if p.unlocked_levels.contains info.level then p.unlocked_levels
                          else p.unlocked_levels ++ [info.level]
          { p with unlocked_levels := unlocked, level := info.level }
        else p
      ({ s with profile := p, log := s.log ++ [.syncedProfile] }, true)

/-- `WanikaniUserSyncerV2.sync_with_wk(full_sync)`: profile first; if it
succeeded, run the incremental or full vocabulary sync and return the
2-tuple `(True, new_review_count)`; otherwise log and return the 3-tuple
`(False, 0, 0)`. -/
def sync_with_wk (env : WkEnv) (full_sync : Bool) (s : SyncState) :
    SyncState × Except PyErr SyncReturn :=
  let s := { s with log := s.log ++ [.aboutToSync] }
  match sync_user_profile_with_wk env s with
  | (s, true) =>
      if full_sync then
        match sync_unlocked_vocab_with_wk_v2 env s with
        | (s, .ok count) => (s, .ok (.pair2 true (.int count)))
        | (s, .error e) => (s, .error e)
      else
        let (s, v) := sync_recent_unlocked_vocab_with_wk_v2 env s
        (s, .ok (.pair2 true v))
  | (s, false) =>
      ({ s with log := s.log ++ [.notAttemptingSync] }, .ok (.triple false 0 0))

end Syncer

/-! ## Concrete fixtures, used to evaluate the syncer on explicit inputs -/

/-- A vocabulary row present in the local catalog. -/
def vocabFixture : Vocabulary :=
  { meaning := "cat", alternate_meanings := "", wk_subject_id := 5,
    wk_last_modified := some 10, parts_of_speech := ["noun"],
    auxiliary_meanings_whitelist := none, level := some 1,
    readings := [{ character := "a", kana := "b", level := some 1 }] }

/-- An assignment snapshot referencing `vocabFixture`'s subject id. -/
def assignmentFixture : AssignmentSnapshot :=
  { subject_id := 5, srs_stage_name := "apprentice", srs_stage := 2,
    burned_at := none, data_updated_at := 50 }

/-- A profile with a valid credential, following the remote level, with
level 1 unlocked. -/
def profileFixture : Profile :=
  { api_valid := true, join_date := none, last_wanikani_sync_date := none,
    level := 1, unlocked_levels := [1], follow_me := true }

/-- A remote environment whose fetches all succeed; the full assignment
fetch yields exactly `assignmentFixture`. -/
def envOkFixture : WkEnv :=
  { now := 1000, profile_fetch := .ok { started_at := 7, level := 1 },
    assignments_all := .ok [assignmentFixture],
    assignments_by_level := fun _ => .ok [assignmentFixture],
    study_materials := fun _ => .ok [] }

/-- The same environment except that the profile fetch raises
`InvalidWanikaniApiKeyException`. -/
def envBadKeyFixture : WkEnv := { envOkFixture with profile_fetch := .error () }

/-- A pre-existing review record for `vocabFixture`. -/
def reviewFixture1 : UserSpecific := Syncer.newUserSpecific 5 0

/-- A second, distinct review record for the same (user, vocabulary) pair —
the duplicated state the uniqueness constraint forbids. -/
def reviewFixture2 : UserSpecific := { Syncer.newUserSpecific 5 0 with correct := 2 }

/-- Store state with the catalog vocabulary and no review records yet. -/
def stateNoReviews : SyncState :=
  { profile := profileFixture, vocabularies := [vocabFixture], reviews := [], log := [] }

/-- Store state with exactly one review record for `vocabFixture`. -/
def stateOneReview : SyncState := { stateNoReviews with reviews := [reviewFixture1] }

/-- Store state with two duplicate review records for `vocabFixture`. -/
def stateDupReviews : SyncState :=
  { stateNoReviews with reviews := [reviewFixture1, reviewFixture2] }

/-! ## Helper lemmas (shared across claims) -/

/-- The criticality predicate, written out: the attempt-count guard and the
failure-ratio test. Used to state what `is_critical` computes. -/
def criticalValue (cfg : SrsConfig) (r : UserSpecific) : Bool :=
  decide (cfg.minimum_attempt_count_for_criticality ≤ r.correct + r.incorrect) &&
  decide (cfg.criticality_threshold ≤ (r.incorrect : ℚ) / ((r.correct : ℚ) + (r.incorrect : ℚ)))

/-- The readings transformation performed inside `Vocabulary.reconcile`
(`_delete_stale_readings_based_on` followed by `_add_new_readings_based_on`),
as a pure list function; `reconcile_eq` below proves by `rfl` that it is
exactly what `reconcile` does to the `readings` field. -/
def readingsStep (snap : VocabSnapshot) (L : List Reading) : List Reading :=
  let kanas := snap.readings.map ReadingObj.reading
  let kept := L.filter (fun r => kanas.contains r.kana)
  let added := (snap.readings.filter (fun ro => !(kept.map Reading.kana).contains ro.reading)).map
    (fun ro => ({ character := snap.characters, kana := ro.reading,
                  level := some snap.level } : Reading))
  kept ++ added

theorem is_critical_spec (cfg : SrsConfig) (r : UserSpecific)
    (h : r.correct + r.incorrect ≠ 0 ∨ 1 ≤ cfg.minimum_attempt_count_for_criticality) :
    UserSpecific.is_critical cfg r = .ok (criticalValue cfg r) := by
  unfold UserSpecific.is_critical UserSpecific.can_be_critical UserSpecific.breaks_threshold
    criticalValue
  by_cases h0 : r.correct + r.incorrect = 0
  · have hm : ¬ cfg.minimum_attempt_count_for_criticality ≤ r.correct + r.incorrect := by
      rcases h with h | h
      · exact absurd h0 h
      · omega
    have hm' : cfg.minimum_attempt_count_for_criticality ≠ 0 := by omega
    simp [h0, hm, hm']
  · by_cases hm : cfg.minimum_attempt_count_for_criticality ≤ r.correct + r.incorrect
    · simp [h0, hm]
    · simp [h0, hm]

theorem set_criticality_spec (cfg : SrsConfig) (r : UserSpecific)
    (h : r.correct + r.incorrect ≠ 0 ∨ 1 ≤ cfg.minimum_attempt_count_for_criticality) :
    UserSpecific.set_criticality cfg r = .ok { r with critical := criticalValue cfg r } := by
  unfold UserSpecific.set_criticality
  rw [is_critical_spec cfg r h]

/-- `is_critical` reads only the counters, not the `critical` field itself. -/
theorem is_critical_set_critical (cfg : SrsConfig) (r : UserSpecific) (b : Bool) :
    UserSpecific.is_critical cfg { r with critical := b } = UserSpecific.is_critical cfg r := rfl

/-- `answered_incorrectly` rewritten as a single record update followed by
`set_criticality`, by cases on the demotion branches. -/
theorem answered_incorrectly_def (cfg : SrsConfig) (r : UserSpecific) :
    UserSpecific.answered_incorrectly cfg r =
      UserSpecific.set_criticality cfg
        { r with incorrect := r.incorrect + 1,
                 streak := max 0 (if r.streak = 7 then r.streak - 2
                                  else if 1 < r.streak then r.streak - 1 else r.streak) } := by
  unfold UserSpecific.answered_incorrectly
  by_cases h7 : r.streak = 7
  · simp [h7]
  · by_cases h1 : 1 < r.streak
    · simp [h7, h1]
    · simp [h7, h1]

/-- `set_criticality` cannot fail on a record whose incorrect counter was
just incremented: the attempt total is positive. -/
theorem set_criticality_after_incorrect (cfg : SrsConfig) (r : UserSpecific) (s : Nat) :
    UserSpecific.set_criticality cfg { r with incorrect := r.incorrect + 1, streak := s } =
      .ok { r with incorrect := r.incorrect + 1, streak := s,
                   critical := criticalValue cfg
                     { r with incorrect := r.incorrect + 1, streak := s } } :=
  set_criticality_spec cfg _ (Or.inl (by simp))

/-- Case analysis of `answered_incorrectly`: it always succeeds, increments
the incorrect counter, applies the 7 → 5 / `> 1` → `- 1` demotion, leaves
the other scheduling fields alone, and stores the recomputed criticality. -/
theorem answered_incorrectly_cases (cfg : SrsConfig) (r : UserSpecific) :
    ∃ r', UserSpecific.answered_incorrectly cfg r = .ok r' ∧
      r'.incorrect = r.incorrect + 1 ∧
      r'.correct = r.correct ∧
      r'.streak = max 0 (if r.streak = 7 then r.streak - 2
                         else if 1 < r.streak then r.streak - 1 else r.streak) ∧
      r'.next_review_date = r.next_review_date ∧
      r'.last_studied = r.last_studied ∧
      r'.needs_review = r.needs_review ∧
      r'.burned = r.burned ∧
      UserSpecific.is_critical cfg r' = .ok r'.critical := by
  rw [answered_incorrectly_def, set_criticality_after_incorrect]
  refine ⟨_, rfl, by simp, by simp, by simp, by simp, by simp, by simp, by simp, ?_⟩
  exact is_critical_spec cfg _ (Or.inl (by simp))

theorem readingsStep_def (snap : VocabSnapshot) (M : List Reading) :
    readingsStep snap M =
      M.filter (fun r => (snap.readings.map ReadingObj.reading).contains r.kana) ++
      (snap.readings.filter (fun ro =>
        !((M.filter (fun r => (snap.readings.map ReadingObj.reading).contains r.kana)).map
          Reading.kana).contains ro.reading)).map
        (fun ro => ({ character := snap.characters, kana := ro.reading,
                      level := some snap.level } : Reading)) := rfl

/-- After one `readingsStep`, every remaining reading's kana is remote, so a
second deletion pass deletes nothing and a second addition pass adds nothing. -/
theorem readingsStep_idem (snap : VocabSnapshot) (L : List Reading) :
    readingsStep snap (readingsStep snap L) = readingsStep snap L := by
  have hA : ∀ r ∈ readingsStep snap L,
      ((snap.readings.map ReadingObj.reading).contains r.kana) = true := by
    intro r hr
    rw [readingsStep_def, List.mem_append] at hr
    rcases hr with hr | hr
    · exact (List.mem_filter.mp hr).2
    · simp only [List.mem_map] at hr
      obtain ⟨ro, hro, rfl⟩ := hr
      have hm : ro ∈ snap.readings := (List.mem_filter.mp hro).1
      simp only [List.mem_map]
      simp
      exact ⟨ro, hm, rfl⟩
  have hkept : (readingsStep snap L).filter
      (fun r => (snap.readings.map ReadingObj.reading).contains r.kana) = readingsStep snap L :=
    List.filter_eq_self.mpr hA
  have hB : (snap.readings.filter
      (fun ro => !((readingsStep snap L).map Reading.kana).contains ro.reading)) = [] := by
    apply List.filter_eq_nil_iff.mpr
    intro ro hro
    simp only [Bool.not_eq_true', Bool.not_eq_false]
    have hmm : ro.reading ∈ (readingsStep snap L).map Reading.kana := by
      by_cases hmem : ro.reading ∈ (L.filter
          (fun r => (snap.readings.map ReadingObj.reading).contains r.kana)).map Reading.kana
      · rw [readingsStep_def, List.map_append, List.mem_append]
        exact Or.inl hmem
      · have hq : ro ∈ snap.readings.filter (fun ro =>
            !((L.filter (fun r => (snap.readings.map ReadingObj.reading).contains r.kana)).map
              Reading.kana).contains ro.reading) := by
          apply List.mem_filter.mpr
          refine ⟨hro, ?_⟩
          simpa using hmem
        rw [readingsStep_def, List.map_append, List.mem_append, List.map_map]
        right
        simp only [List.mem_map]
        exact ⟨ro, hq, rfl⟩
    simpa using hmm
  rw [readingsStep_def snap (readingsStep snap L), hkept, hB]
  simp

/-- `reconcile` written as one record literal: the stamp, level, meanings and
parts-of-speech come from the snapshot, the subject id is untouched, and the
readings undergo `readingsStep`. Proved by `rfl`, so it is definitionally
what the source does. -/
theorem reconcile_eq (v : Vocabulary) (snap : VocabSnapshot) :
    Vocabulary.reconcile v snap =
      { meaning := (snap.meanings.filter MeaningObj.primary).foldl
          (fun _ (mo : MeaningObj) => mo.meaning) v.meaning
        alternate_meanings := ",".intercalate
          ((snap.meanings.filter (fun m => !m.primary)).map MeaningObj.meaning)
        wk_subject_id := v.wk_subject_id
        wk_last_modified := some snap.data_updated_at
        parts_of_speech := snap.parts_of_speech.foldl
          (fun acc p => if acc.contains p then acc else acc ++ [p]) []
        auxiliary_meanings_whitelist := some (",".intercalate snap.auxiliary_meanings)
        level := some snap.level
        readings := readingsStep snap v.readings } := rfl

/-- Folding the last-primary-wins assignment twice gives the same meaning as
folding it once: the second fold's initial value is irrelevant when the list
is non-empty, and is returned unchanged when it is empty. -/
theorem foldl_primary_meaning_idem (l : List MeaningObj) (a : String) :
    l.foldl (fun _ (mo : MeaningObj) => mo.meaning)
        (l.foldl (fun _ (mo : MeaningObj) => mo.meaning) a)
      = l.foldl (fun _ (mo : MeaningObj) => mo.meaning) a := by
  cases l with
  | nil => rfl
  | cons x xs => rfl

/-! ## Claims -/

/-- C1: for every review record, `answered_incorrectly` increments the
incorrect counter by exactly one; the streak drops by 2 when it was 7, by 1
when it was greater than 1, and the result is clamped to a minimum of 0;
criticality is recomputed afterwards (the stored `critical` flag equals what
`is_critical` computes on the updated record) and `next_review_date` is not
recomputed by this operation. -/
theorem C1_answered_incorrectly (cfg : SrsConfig) (r : UserSpecific) :
    ∃ r', UserSpecific.answered_incorrectly cfg r = .ok r' ∧
      r'.incorrect = r.incorrect + 1 ∧
      r'.streak = max 0 (if r.streak = 7 then r.streak - 2
                         else if 1 < r.streak then r.streak - 1 else r.streak) ∧
      UserSpecific.is_critical cfg r' = .ok r'.critical ∧
      r'.next_review_date = r.next_review_date := by
  obtain ⟨r', heq, hi, _, hs, hnrd, _, _, _, hcrit⟩ := answered_incorrectly_cases cfg r
  exact ⟨r', heq, hi, hs, hcrit, hnrd⟩

/-- C2 (counterexample): on a record whose streak is 1, `answered_incorrectly`
leaves the streak at 1, not 0 — the claimed drop to the lesson floor does not
happen. -/
theorem C2_counterexample :
    (UserSpecific.answered_incorrectly
        { minimum_attempt_count_for_criticality := 4, criticality_threshold := 3 / 4,
          burn_streak := 9, srs_times := fun _ => none, review_rounding_seconds := 3600 }
        { Syncer.newUserSpecific 1 0 with streak := 1 }).toOption.map UserSpecific.streak
      ≠ some 0 ∧
    (UserSpecific.answered_incorrectly
        { minimum_attempt_count_for_criticality := 4, criticality_threshold := 3 / 4,
          burn_streak := 9, srs_times := fun _ => none, review_rounding_seconds := 3600 }
        { Syncer.newUserSpecific 1 0 with streak := 1 }).toOption.map UserSpecific.streak
      = some 1 := by
  constructor
  · decide
  · decide

/-- C2 (amended): if `answered_incorrectly` is called on a review record whose
streak is 1, the resulting streak is still 1 — the demotion branch requires
`streak > 1`, so an item at the lowest review tier is not returned to the
lesson floor. -/
theorem C2_amended_streak_one_kept (cfg : SrsConfig) (r : UserSpecific)
    (h : r.streak = 1) :
    ∃ r', UserSpecific.answered_incorrectly cfg r = .ok r' ∧ r'.streak = 1 := by
  obtain ⟨r', heq, _, _, hs, _⟩ := answered_incorrectly_cases cfg r
  refine ⟨r', heq, ?_⟩
  rw [hs, h]
  decide

theorem C2_amended_witness :
    ({ Syncer.newUserSpecific 2 0 with streak := 1 } : UserSpecific).streak = 1 ∧
    ∃ r', UserSpecific.answered_incorrectly
        { minimum_attempt_count_for_criticality := 2, criticality_threshold := 1 / 2,
          burn_streak := 9, srs_times := fun _ => none, review_rounding_seconds := 900 }
        { Syncer.newUserSpecific 2 0 with streak := 1 } = .ok r' ∧ r'.streak = 1 :=
  ⟨by decide, C2_amended_streak_one_kept _ _ (by decide)⟩

/-- C10: `streak ≥ 1` is preserved by `answered_incorrectly`; in particular a
record with streak 1 keeps streak 1, so an incorrect answer never returns an
item to the unreviewed lesson state `streak = 0`. -/
theorem C10_streak_ge_one_preserved (cfg : SrsConfig) (r : UserSpecific)
    (h : 1 ≤ r.streak) :
    ∃ r', UserSpecific.answered_incorrectly cfg r = .ok r' ∧ 1 ≤ r'.streak ∧
      (r.streak = 1 → r'.streak = 1) := by
  obtain ⟨r', heq, _, _, hs, _⟩ := answered_incorrectly_cases cfg r
  refine ⟨r', heq, ?_, ?_⟩
  · rw [hs]
    split
    · omega
    · split <;> omega
  · intro h1
    rw [hs, h1]
    decide

theorem C10_witness :
    1 ≤ ({ Syncer.newUserSpecific 3 0 with streak := 7 } : UserSpecific).streak ∧
    ∃ r', UserSpecific.answered_incorrectly
        { minimum_attempt_count_for_criticality := 3, criticality_threshold := 1 / 4,
          burn_streak := 9, srs_times := fun _ => none, review_rounding_seconds := 900 }
        { Syncer.newUserSpecific 3 0 with streak := 7 } = .ok r' ∧ 1 ≤ r'.streak ∧
      (({ Syncer.newUserSpecific 3 0 with streak := 7 } : UserSpecific).streak = 1 →
        r'.streak = 1) :=
  ⟨by decide, C10_streak_ge_one_preserved _ _ (by decide)⟩

/-- C3: `answered_correctly(first_attempt)`: a lesson (`streak = 0`) is
promoted to streak 1 regardless of `first_attempt`; otherwise, only on a
first attempt, the correct counter and streak are incremented and `burned`
is set when the new streak reaches the configured burned threshold; in every
call `needs_review` becomes false, `last_studied` becomes now,
`next_review_date` is recomputed from the new streak and now, and
criticality is recomputed. (The attempt-count minimum is positive, per the
spec's divide-by-zero guard; the constant itself is not in src.) -/
theorem C3_answered_correctly (cfg : SrsConfig) (now : Nat) (r : UserSpecific)
    (first_try : Bool) (h : 1 ≤ cfg.minimum_attempt_count_for_criticality) :
    ∃ r', UserSpecific.answered_correctly cfg now r first_try = .ok r' ∧
      r'.streak = (if r.streak = 0 then 1 else if first_try then r.streak + 1 else r.streak) ∧
      r'.correct = (if r.streak ≠ 0 ∧ first_try then r.correct + 1 else r.correct) ∧
      r'.incorrect = r.incorrect ∧
      r'.burned = (if r.streak ≠ 0 ∧ first_try ∧ cfg.burn_streak ≤ r.streak + 1
                   then true else r.burned) ∧
      r'.needs_review = false ∧
      r'.last_studied = some now ∧
      r'.next_review_date = UserSpecific.next_review_time cfg r'.streak now ∧
      UserSpecific.is_critical cfg r' = .ok r'.critical := by
  unfold UserSpecific.answered_correctly UserSpecific.set_next_review_time
  by_cases h0 : r.streak = 0
  · simp only [h0, if_pos rfl, reduceIte]
    rw [set_criticality_spec cfg _ (Or.inr h)]
    refine ⟨_, rfl, by simp [h0], by simp [h0], by simp, by simp [h0], by simp, by simp, ?_, ?_⟩
    · simp
    · exact is_critical_spec cfg _ (Or.inr h)
  · by_cases hf : first_try
    · by_cases hb : cfg.burn_streak ≤ r.streak + 1
      · simp only [h0, if_neg h0, hf, if_pos rfl, reduceIte, hb, if_pos hb]
        rw [set_criticality_spec cfg _ (Or.inr h)]
        refine ⟨_, rfl, by simp [h0, hf], by simp [h0, hf], by simp, by simp [h0, hf, hb],
          by simp, by simp, ?_, ?_⟩
        · simp
        · exact is_critical_spec cfg _ (Or.inr h)
      · simp only [h0, if_neg h0, hf, reduceIte, hb, if_neg hb]
        rw [set_criticality_spec cfg _ (Or.inr h)]
        refine ⟨_, rfl, by simp [h0, hf], by simp [h0, hf], by simp, by simp [h0, hf, hb],
          by simp, by simp, ?_, ?_⟩
        · simp
        · exact is_critical_spec cfg _ (Or.inr h)
    · simp only [h0, if_neg h0, hf, reduceIte]
      rw [set_criticality_spec cfg _ (Or.inr h)]
      refine ⟨_, rfl, by simp [h0, hf], by simp [h0, hf], by simp, by simp [h0, hf],
        by simp, by simp, ?_, ?_⟩
      · simp
      · exact is_critical_spec cfg _ (Or.inr h)

theorem C3_witness :
    1 ≤ (({ minimum_attempt_count_for_criticality := 2, criticality_threshold := 1 / 2,
            burn_streak := 9, srs_times := fun s => if s ≤ 8 then some (4 * s + 4) else none,
            review_rounding_seconds := 900 } : SrsConfig)).minimum_attempt_count_for_criticality ∧
    ∃ r', UserSpecific.answered_correctly
        { minimum_attempt_count_for_criticality := 2, criticality_threshold := 1 / 2,
          burn_streak := 9, srs_times := fun s => if s ≤ 8 then some (4 * s + 4) else none,
          review_rounding_seconds := 900 }
        5000 (Syncer.newUserSpecific 4 0) true = .ok r' ∧
      r'.streak = (if (Syncer.newUserSpecific 4 0).streak = 0 then 1
                   else if true then (Syncer.newUserSpecific 4 0).streak + 1
                   else (Syncer.newUserSpecific 4 0).streak) ∧
      r'.correct = (if (Syncer.newUserSpecific 4 0).streak ≠ 0 ∧ true
                    then (Syncer.newUserSpecific 4 0).correct + 1
                    else (Syncer.newUserSpecific 4 0).correct) ∧
      r'.incorrect = (Syncer.newUserSpecific 4 0).incorrect ∧
      r'.burned = (if (Syncer.newUserSpecific 4 0).streak ≠ 0 ∧ true ∧
                      (9 : Nat) ≤ (Syncer.newUserSpecific 4 0).streak + 1
                   then true else (Syncer.newUserSpecific 4 0).burned) ∧
      r'.needs_review = false ∧
      r'.last_studied = some 5000 ∧
      r'.next_review_date = UserSpecific.next_review_time
        { minimum_attempt_count_for_criticality := 2, criticality_threshold := 1 / 2,
          burn_streak := 9, srs_times := fun s => if s ≤ 8 then some (4 * s + 4) else none,
          review_rounding_seconds := 900 } r'.streak 5000 ∧
      UserSpecific.is_critical
        { minimum_attempt_count_for_criticality := 2, criticality_threshold := 1 / 2,
          burn_streak := 9, srs_times := fun s => if s ≤ 8 then some (4 * s + 4) else none,
          review_rounding_seconds := 900 } r' = .ok r'.critical :=
  ⟨by decide, C3_answered_correctly _ 5000 (Syncer.newUserSpecific 4 0) true (by decide)⟩

/-- C4: `is_critical` succeeds (the ratio's division is never evaluated on a
zero denominator, because the short-circuited attempt-count guard rejects an
empty history first) and its value is true iff the attempt total reaches
`MINIMUM_ATTEMPT_COUNT_FOR_CRITICALITY` and the failure ratio reaches
`CRITICALITY_THRESHOLD`; with zero counters, or any total below the minimum,
it is false. (The minimum is positive per the spec's guard wording; the
constant itself is not in src.) -/
theorem C4_is_critical (cfg : SrsConfig) (r : UserSpecific)
    (h : 1 ≤ cfg.minimum_attempt_count_for_criticality) :
    ∃ b, UserSpecific.is_critical cfg r = .ok b ∧
      (b = true ↔ cfg.minimum_attempt_count_for_criticality ≤ r.correct + r.incorrect ∧
        cfg.criticality_threshold ≤ (r.incorrect : ℚ) / ((r.correct : ℚ) + (r.incorrect : ℚ))) ∧
      (r.correct = 0 ∧ r.incorrect = 0 → b = false) ∧
      (r.correct + r.incorrect < cfg.minimum_attempt_count_for_criticality → b = false) := by
  refine ⟨_, is_critical_spec cfg r (Or.inr h), ?_, ?_, ?_⟩
  · unfold criticalValue
    simp
  · rintro ⟨hc, hi⟩
    have hm : ¬ cfg.minimum_attempt_count_for_criticality ≤ r.correct + r.incorrect := by
      omega
    unfold criticalValue
    simp [hm]
  · intro hlt
    have hm : ¬ cfg.minimum_attempt_count_for_criticality ≤ r.correct + r.incorrect := by
      omega
    unfold criticalValue
    simp [hm]

theorem C4_witness :
    1 ≤ (({ minimum_attempt_count_for_criticality := 2, criticality_threshold := 1 / 2,
            burn_streak := 9, srs_times := fun _ => none,
            review_rounding_seconds := 900 } : SrsConfig)).minimum_attempt_count_for_criticality ∧
    ∃ b, UserSpecific.is_critical
        { minimum_attempt_count_for_criticality := 2, criticality_threshold := 1 / 2,
          burn_streak := 9, srs_times := fun _ => none, review_rounding_seconds := 900 }
        { Syncer.newUserSpecific 5 0 with correct := 1, incorrect := 3 } = .ok b ∧
      (b = true ↔ (2 : Nat) ≤ ({ Syncer.newUserSpecific 5 0 with correct := 1, incorrect := 3 } : UserSpecific).correct + ({ Syncer.newUserSpecific 5 0 with correct := 1, incorrect := 3 } : UserSpecific).incorrect ∧
        (1 / 2 : ℚ) ≤ ((({ Syncer.newUserSpecific 5 0 with correct := 1, incorrect := 3 } : UserSpecific).incorrect : ℚ)) / (((({ Syncer.newUserSpecific 5 0 with correct := 1, incorrect := 3 } : UserSpecific).correct : ℚ)) + (({ Syncer.newUserSpecific 5 0 with correct := 1, incorrect := 3 } : UserSpecific).incorrect : ℚ))) ∧
      (({ Syncer.newUserSpecific 5 0 with correct := 1, incorrect := 3 } : UserSpecific).correct = 0 ∧ ({ Syncer.newUserSpecific 5 0 with correct := 1, incorrect := 3 } : UserSpecific).incorrect = 0 → b = false) ∧
      (({ Syncer.newUserSpecific 5 0 with correct := 1, incorrect := 3 } : UserSpecific).correct + ({ Syncer.newUserSpecific 5 0 with correct := 1, incorrect := 3 } : UserSpecific).incorrect < 2 → b = false) :=
  ⟨by decide,
    C4_is_critical _ { Syncer.newUserSpecific 5 0 with correct := 1, incorrect := 3 } (by decide)⟩

/-- C5: vocabulary reconciliation is idempotent. Immediately after
`reconcile(snapshot)` the staleness check `is_out_of_date(snapshot)` is false
(the stored stamp now equals the snapshot's `data_updated_at`, and staleness
requires a strictly newer remote timestamp), so a caller guarding on it skips
the second reconcile; and even an unguarded second `reconcile` with the same
snapshot leaves the state unchanged. -/
theorem C5_reconcile_idempotent (v : Vocabulary) (snap : VocabSnapshot) :
    Vocabulary.is_out_of_date (Vocabulary.reconcile v snap) snap = false ∧
    Vocabulary.reconcile (Vocabulary.reconcile v snap) snap = Vocabulary.reconcile v snap := by
  constructor
  · rw [reconcile_eq]
    simp [Vocabulary.is_out_of_date]
  · rw [reconcile_eq (Vocabulary.reconcile v snap) snap, reconcile_eq v snap]
    simp [Vocabulary.mk.injEq, foldl_primary_meaning_idem, readingsStep_idem]

/-- C6: `reconcile_assignment` writes exactly the four remote mirror fields
(`wanikani_srs`, `wanikani_srs_numeric`, `wanikani_burned`,
`wk_assignment_last_modified`) and leaves every other field — in particular
`streak`, `correct` and `incorrect` — unchanged. -/
theorem C6_reconcile_assignment_frame (r : UserSpecific) (a : AssignmentSnapshot) :
    (UserSpecific.reconcile_assignment r a).wanikani_srs = a.srs_stage_name ∧
    (UserSpecific.reconcile_assignment r a).wanikani_srs_numeric = a.srs_stage ∧
    (UserSpecific.reconcile_assignment r a).wanikani_burned = a.burned_at.isSome ∧
    (UserSpecific.reconcile_assignment r a).wk_assignment_last_modified
      = some a.data_updated_at ∧
    (UserSpecific.reconcile_assignment r a).streak = r.streak ∧
    (UserSpecific.reconcile_assignment r a).correct = r.correct ∧
    (UserSpecific.reconcile_assignment r a).incorrect = r.incorrect ∧
    (UserSpecific.reconcile_assignment r a).vocabulary_id = r.vocabulary_id ∧
    (UserSpecific.reconcile_assignment r a).last_studied = r.last_studied ∧
    (UserSpecific.reconcile_assignment r a).needs_review = r.needs_review ∧
    (UserSpecific.reconcile_assignment r a).unlock_date = r.unlock_date ∧
    (UserSpecific.reconcile_assignment r a).next_review_date = r.next_review_date ∧
    (UserSpecific.reconcile_assignment r a).burned = r.burned ∧
    (UserSpecific.reconcile_assignment r a).hidden = r.hidden ∧
    (UserSpecific.reconcile_assignment r a).notes = r.notes ∧
    (UserSpecific.reconcile_assignment r a).critical = r.critical ∧
    (UserSpecific.reconcile_assignment r a).wk_study_materials_last_modified
      = r.wk_study_materials_last_modified ∧
    (UserSpecific.reconcile_assignment r a).meaning_note = r.meaning_note ∧
    (UserSpecific.reconcile_assignment r a).reading_note = r.reading_note :=
  ⟨rfl, rfl, rfl, rfl, rfl, rfl, rfl, rfl, rfl, rfl, rfl, rfl, rfl, rfl, rfl, rfl, rfl,
    rfl, rfl⟩

/-- C7 (at the failing input): when the profile fetch raises the
invalid-credential exception, `sync_with_wk` marks `api_valid` false,
touches no review record and no vocabulary (even though assignments were
available remotely), and returns — but it returns the 3-tuple
`(False, 0, 0)`, not the pair `(False, 0)` the success branch's shape and
the claim prescribe. The same value is returned for both `full_sync`
flags. -/
theorem C7_invalid_credential_result :
    (Syncer.sync_with_wk envBadKeyFixture true stateOneReview).2
      = .ok (.triple false 0 0) ∧
    (Syncer.sync_with_wk envBadKeyFixture false stateOneReview).2
      = .ok (.triple false 0 0) ∧
    (Syncer.sync_with_wk envBadKeyFixture true stateOneReview).1.profile.api_valid = false ∧
    (Syncer.sync_with_wk envBadKeyFixture true stateOneReview).1.reviews
      = stateOneReview.reviews ∧
    (Syncer.sync_with_wk envBadKeyFixture true stateOneReview).1.vocabularies
      = stateOneReview.vocabularies ∧
    (∀ w : Bool × Nat, .ok (.triple false 0 0)
      ≠ (Except.ok (.pair2 w.1 (.int w.2)) : Except PyErr SyncReturn)) :=
  ⟨rfl, rfl, rfl, rfl, rfl, fun _ => by simp⟩

/-- C8 (at the failing input): with two pre-existing review records for the
same (user, vocabulary) pair, the association step logs both offenders and
returns `(None, None)` without creating or reconciling anything — but the
overall full-sync pass does not continue: the caller immediately evaluates
`review.out_of_date(...)` on `None`, raising `AttributeError`, which the
full-sync path does not catch, so no new-review count is returned at all. -/
theorem C8_duplicate_reviews_abort :
    (Syncer.associate_vocab_to_user 1000 vocabFixture stateDupReviews).2.1 = none ∧
    (Syncer.associate_vocab_to_user 1000 vocabFixture stateDupReviews).2.2 = none ∧
    (Syncer.associate_vocab_to_user 1000 vocabFixture stateDupReviews).1.reviews
      = stateDupReviews.reviews ∧
    (Syncer.associate_vocab_to_user 1000 vocabFixture stateDupReviews).1.log
      = [.duplicateReview reviewFixture1, .duplicateReview reviewFixture2] ∧
    (Syncer.sync_unlocked_vocab_with_wk_v2 envOkFixture stateDupReviews).2
      = .error .attributeError ∧
    (Syncer.sync_with_wk envOkFixture true stateDupReviews).2 = .error .attributeError :=
  ⟨rfl, rfl, rfl, rfl, rfl, rfl⟩

/-- C9 (at the failing input): a full-sync pass over a profile with a
non-empty unlocked-level list and one assignment whose vocabulary exists
locally creates one review record — and then, instead of returning the
count 1, raises `AttributeError` at the unimplemented
`review.out_of_date(...)` (and, had per-item processing succeeded, the
result would additionally be doubled by `new_review_count +=
new_review_count`). -/
theorem C9_full_sync_count_not_returned :
    stateNoReviews.profile.unlocked_levels ≠ [] ∧
    (Syncer.sync_unlocked_vocab_with_wk_v2 envOkFixture stateNoReviews).2
      = .error .attributeError ∧
    (Syncer.sync_unlocked_vocab_with_wk_v2 envOkFixture stateNoReviews).1.reviews.length
      = 1 ∧
    (Syncer.sync_with_wk envOkFixture true stateNoReviews).2 = .error .attributeError :=
  ⟨by decide, rfl, rfl, rfl⟩

end KW
